import Mathlib

/-!
Shallow embedding of `scripts/generate-manifest.py`, the manifest generator of
the f5xc-chrome repository, together with proofs about its loaders
(`load_json`, `get_skills`, `get_workflows`, `get_changelog`, `get_git_info`),
its pure assembler and its writer (`main`).

The filesystem is modelled as an explicit value (`FS`): a list of files (path
segments paired with text content) and a list of directories.  JSON parsing is
abstracted as a parameter `parse : String → Except String Json`; everything
else is translated operation for operation from the Python source.  Python
string methods (`split` with a maxsplit argument, `replace`, `strip`,
`startswith`, `title`, slicing) are reimplemented over `List Char` by
structural recursion so that every definition evaluates inside the kernel.
-/

/-! ### Python string primitives -/

/-- Is the first list a leading segment of the second (Python `startswith` on
    explicit char lists)? -/
def leadsWith : List Char → List Char → Bool
  | [], _ => true
  | _ :: _, [] => false
  | p :: ps, c :: cs => p == c && leadsWith ps cs

/-- Python `s.startswith(t)`. -/
def pyStartsWith (s t : String) : Bool :=
  leadsWith t.data s.data

/-- Python `s.endswith(t)`. -/
def pyEndsWith (s t : String) : Bool :=
  leadsWith t.data.reverse s.data.reverse

/-- Python `t in s` (substring containment), by scanning `s`. -/
def containsSub : List Char → List Char → Bool
  | sub, [] => leadsWith sub []
  | sub, c :: cs => leadsWith sub (c :: cs) || containsSub sub cs

/-- Python `t in s` on strings. -/
def pyContains (s t : String) : Bool :=
  containsSub t.data s.data

/-- Drop leading whitespace characters. -/
def dropLeadingWs : List Char → List Char
  | [] => []
  | c :: cs => if c.isWhitespace then dropLeadingWs cs else c :: cs

/-- Python `s.strip()`: remove leading and trailing whitespace. -/
def pyStrip (s : String) : String :=
  ⟨dropLeadingWs ((dropLeadingWs s.data.reverse).reverse)⟩

/-- Python `s[n:]`. -/
def pyDropLeft (s : String) (n : Nat) : String :=
  ⟨s.data.drop n⟩

/-- Python `s[:n]`. -/
def pyTakeLeft (s : String) (n : Nat) : String :=
  ⟨s.data.take n⟩

/-- Core of Python `s.split(sep, maxsplit)`: scan `s` left to right, splitting
    at each non-overlapping occurrence of the (nonempty) separator while the
    split budget lasts (`none` = unlimited).  `fuel` bounds the recursion and
    is instantiated to more characters than `s` has, so it never runs out;
    `acc` holds the current piece reversed. -/
def pySplitCore (sep : List Char) : Nat → Option Nat → List Char → List Char →
    List (List Char)
  | 0, _, s, acc => [acc.reverse ++ s]
  | _ + 1, some 0, s, acc => [acc.reverse ++ s]
  | fuel + 1, budget, c :: cs, acc =>
    if leadsWith sep (c :: cs) then
      acc.reverse ::
        pySplitCore sep fuel (budget.map (· - 1)) ((c :: cs).drop sep.length) []
    else
      pySplitCore sep fuel budget cs (c :: acc)
  | _ + 1, _, [], acc => [acc.reverse]

/-- Python `s.split(sep, maxsplit)` with `maxsplit = none` meaning unlimited. -/
def pySplit (s sep : String) (maxsplit : Option Nat) : List String :=
  (pySplitCore sep.data (s.data.length + 1) maxsplit s.data []).map String.mk

/-- Core of Python `s.replace(old, new)`: replace every non-overlapping
    occurrence of the (nonempty) `old`, scanning left to right. -/
def pyReplaceCore (old new : List Char) : Nat → List Char → List Char
  | 0, s => s
  | fuel + 1, c :: cs =>
    if leadsWith old (c :: cs) then
      new ++ pyReplaceCore old new fuel ((c :: cs).drop old.length)
    else
      c :: pyReplaceCore old new fuel cs
  | _ + 1, [] => []

/-- Python `s.replace(old, new)`. -/
def pyReplace (s old new : String) : String :=
  ⟨pyReplaceCore old.data new.data (s.data.length + 1) s.data⟩

/-- Core of Python `s.title()`: a letter following a letter is lowercased, any
    other letter is uppercased; the flag records whether the previous
    character was a letter. -/
def pyTitleCore : Bool → List Char → List Char
  | _, [] => []
  | prevAlpha, c :: cs =>
    if c.isAlpha then
      (if prevAlpha then c.toLower else c.toUpper) :: pyTitleCore true cs
    else
      c :: pyTitleCore false cs

/-- Python `s.title()`. -/
def pyTitle (s : String) : String :=
  ⟨pyTitleCore false s.data⟩

/-- Join strings with a separator (Python `sep.join(parts)`), used to render
    paths the way `str(Path)` does. -/
def sepJoin (sep : String) : List String → String
  | [] => ""
  | [x] => x
  | x :: xs => x ++ sep ++ sepJoin sep xs

/-! ### Paths and the filesystem model -/

/-- A filesystem path, as its list of segments relative to the filesystem
    root. -/
abbrev FPath := List String

/-- The `pathlib` stem: the final component's name without its last dot-suffix
    (a lone leading dot, as in `".md"`, is not a suffix). -/
def pathStem (name : String) : String :=
  let parts := pySplit name "." none
  if parts.length ≤ 1 then name
  else if parts.getD 0 "" == "" && parts.length == 2 then name
  else sepJoin "." parts.dropLast

/-- The final segment of a path (`Path.name`). -/
def lastSeg (p : FPath) : String :=
  p.getLastD ""

/-- Python `Path.parent`. -/
def parentPath (p : FPath) : FPath :=
  p.dropLast

/-- Python `child.relative_to(base)` for `base` an ancestor of `child`: drop the
    shared leading segments. -/
def relativeTo (child base : FPath) : FPath :=
  child.drop base.length

/-- Python `str(p)` for a relative path: segments joined with `/`. -/
def pathStr (p : FPath) : String :=
  sepJoin "/" p

/-- The filesystem a run sees: text files keyed by path, plus the set of
    directories.  Listing order of `files` and `dirs` models the
    platform-dependent directory iteration order. -/
structure FS where
  files : List (FPath × String)
  dirs : List FPath

/-- Content of the file at `p`, when a file exists there. -/
def FS.readFile (fs : FS) (p : FPath) : Option String :=
  (fs.files.find? (fun e => e.1 == p)).map (fun e => e.2)

/-- Does a directory exist at `p`? -/
def FS.dirExists (fs : FS) (p : FPath) : Bool :=
  fs.dirs.any (fun d => d == p)

/-- Python `Path.exists()`: a file or a directory is present at `p`. -/
def FS.pathExists (fs : FS) (p : FPath) : Bool :=
  (fs.readFile p).isSome || fs.dirExists p

/-- The immediate children of `dir`, directories first, each group in listing
    order. -/
def FS.children (fs : FS) (dir : FPath) : List FPath :=
  fs.dirs.filter (fun p => p.length == dir.length + 1 && p.take dir.length == dir)
    ++ (fs.files.map (fun e => e.1)).filter
        (fun p => p.length == dir.length + 1 && p.take dir.length == dir)

/-- Python `Path.iterdir()`: the children when `dir` exists, otherwise the
    `FileNotFoundError` that Python raises. -/
def FS.iterdir (fs : FS) (dir : FPath) : Except String (List FPath) :=
  if fs.dirExists dir then .ok (fs.children dir) else .error "FileNotFoundError"

/-! ### JSON values -/

/-- JSON values as Python's `json` module materialises them; objects keep
    field order.  Objects coming out of `json.load` are duplicate-key free
    (a later duplicate wins while parsing), so association-list lookup agrees
    with `dict` lookup on every parsed value. -/
inductive Json where
  | null
  | bool (b : Bool)
  | num (n : Int)
  | str (s : String)
  | arr (elems : List Json)
  | obj (fields : List (String × Json))

/-- Lookup in an object's field list (first match). -/
def jfind (fields : List (String × Json)) (key : String) : Option Json :=
  (fields.find? (fun f => f.1 == key)).map (fun f => f.2)

/-- Python `d.get(key, default)`.  The script only ever calls `.get` on
    values that are dictionaries; on non-objects we return the default. -/
def Json.getD (j : Json) (key : String) (default : Json) : Json :=
  match j with
  | .obj fields =>
    match jfind fields key with
    | some v => v
    | none => default
  | _ => default

/-- Python `len` on the values the script measures (`dict` and `list`; also
    defined on strings as in Python).  Other values never reach `len` in the
    script. -/
def Json.pyLen : Json → Nat
  | .obj fields => fields.length
  | .arr elems => elems.length
  | .str s => s.data.length
  | _ => 0

/-- The keys of an object, in order. -/
def Json.keys : Json → List String
  | .obj fields => fields.map (fun f => f.1)
  | _ => []

/-- Remove every field named `key` from an object (other values unchanged);
    used to compare manifests up to their timestamp field. -/
def Json.eraseKey (j : Json) (key : String) : Json :=
  match j with
  | .obj fields => .obj (fields.filter (fun f => !(f.1 == key)))
  | _ => j

/-! ### Loaders (`load_json`, `get_skills`, `get_workflows`, `get_changelog`,
`get_git_info`) -/

/-- The loader `load_json`: an absent path yields the empty mapping `{}`; a present file
    is handed to the JSON parser, whose failure propagates.  The parser is a
    parameter (`json.load` abstracted). -/
def load_json (parse : String → Except String Json) (fs : FS) (filepath : FPath) :
    Except String Json :=
  match fs.readFile filepath with
  | none => .ok (Json.obj [])
  | some content => parse content

/-- A skill entry: the Python `skill_info` dictionary (string keys to string
    values, in insertion order). -/
abbrev Skill := List (String × String)

/-- Python `d[k] = v` on a string dictionary: overwrite in place when the key
    is present, else append. -/
def dictSet (d : Skill) (k v : String) : Skill :=
  if d.any (fun e => e.1 == k) then
    d.map (fun e => if e.1 == k then (k, v) else e)
  else
    d ++ [(k, v)]

/-- The front-matter line loop of `get_skills`: every line containing a colon
    is split on the first colon and stored, a later duplicate key
    overwriting an earlier one. -/
def applyFrontmatterLine (d : Skill) (line : String) : Skill :=
  if pyContains line ":" then
    dictSet d (pyStrip ((pySplit line ":" (some 1)).getD 0 ""))
      (pyStrip ((pySplit line ":" (some 1)).getD 1 ""))
  else d

/-- Process one `iterdir` entry of the skills directory: non-directories are
    skipped, directories without `SKILL.md` are skipped, content not starting
    with `---` or splitting into fewer than three `---`-separated parts is
    skipped; otherwise the entry's `skill_info` is appended. -/
def skillOfDir (fs : FS) (skills_dir : FPath) (acc : List Skill)
    (skill_dir : FPath) : List Skill :=
  if !(fs.dirExists skill_dir) then acc
  else
    match fs.readFile (skill_dir ++ ["SKILL.md"]) with
    | none => acc
    | some content =>
      if pyStartsWith content "---" then
        let parts := pySplit content "---" (some 2)
        if 3 ≤ parts.length then
          let frontmatter := pyStrip (parts.getD 1 "")
          let base : Skill :=
            [ ("id", lastSeg skill_dir)
            , ("path", pathStr (relativeTo skill_dir (parentPath skills_dir))) ]
          acc ++ [(pySplit frontmatter "\n" none).foldl applyFrontmatterLine base]
        else acc
      else acc

/-- The loader `get_skills`: iterate the skills directory (raising `FileNotFoundError`
    when it is absent, as `Path.iterdir` does) and collect one entry per
    subdirectory carrying a well-formed `SKILL.md`. -/
def get_skills (fs : FS) (skills_dir : FPath) : Except String (List Skill) :=
  match fs.iterdir skills_dir with
  | .error e => .error e
  | .ok entries => .ok (entries.foldl (skillOfDir fs skills_dir) [])

/-- A workflow entry. -/
structure Workflow where
  id : String
  name : String
  path : String
deriving DecidableEq, Repr

/-- Does a directory entry's name match `glob("*.md")` (ends in `.md`, not a
    dotfile)? -/
def globMd (name : String) : Bool :=
  pyEndsWith name ".md" && !(pyStartsWith name ".")

/-- The loader `get_workflows`: the empty list when the directory is absent; otherwise
    one entry per `*.md` child whose name does not start with `_`, with
    `id` the filename stem, `name` the stem hyphen-to-space title-cased, and
    `path` relative to the directory's great-grandparent. -/
def get_workflows (fs : FS) (workflows_dir : FPath) : List Workflow :=
  if !(fs.pathExists workflows_dir) then []
  else
    ((fs.children workflows_dir).filter
        (fun p => globMd (lastSeg p) && !(pyStartsWith (lastSeg p) "_"))).map
      (fun p =>
        { id := pathStem (lastSeg p)
        , name := pyTitle (pyReplace (pathStem (lastSeg p)) "-" " ")
        , path := pathStr (relativeTo p
            (parentPath (parentPath (parentPath workflows_dir)))) })

/-- One changelog entry: a version label and its bullet lines. -/
structure ChangelogEntry where
  version : String
  changes : List String
deriving DecidableEq, Repr

/-- One line of the `get_changelog` scan over the state
    `(entries, current_entry)`: a `## ` line appends the open entry while
    fewer than `limit` entries have been appended and opens a fresh one whose
    version label is the line with every `"## "` removed and then stripped; a
    `- ` line while an entry is open appends the line minus its first two
    characters, stripped; every other line is ignored. -/
def changelogStep (limit : Nat)
    (st : List ChangelogEntry × Option ChangelogEntry) (line : String) :
    List ChangelogEntry × Option ChangelogEntry :=
  if pyStartsWith line "## " then
    ( match st.2 with
      | some e => if st.1.length < limit then st.1 ++ [e] else st.1
      | none => st.1
    , some ⟨pyStrip (pyReplace line "## " ""), []⟩ )
  else
    match st.2 with
    | some e =>
      if pyStartsWith line "- " then
        (st.1, some ⟨e.version, e.changes ++ [pyStrip (pyDropLeft line 2)]⟩)
      else st
    | none => st

/-- The loader `get_changelog`: the empty list when `CHANGELOG.md` is absent; otherwise
    scan its lines with `changelogStep` and finally append the still-open
    entry subject to the same limit check. -/
def get_changelog (fs : FS) (root_dir : FPath) (limit : Nat) :
    List ChangelogEntry :=
  match fs.readFile (root_dir ++ ["CHANGELOG.md"]) with
  | none => []
  | some content =>
    let st := (pySplit content "\n" none).foldl (changelogStep limit) ([], none)
    match st.2 with
    | some e => if st.1.length < limit then st.1 ++ [e] else st.1
    | none => st.1

/-- The git invocation a run sees: the argument list after `git` maps to
    either captured stdout or a raised exception (tool missing, not a
    repository). -/
abbrev GitRunner := List String → Except Unit String

/-- The dictionary `get_git_info` returns. -/
structure GitInfo where
  commit : String
  branch : String
  tag : Option String
deriving DecidableEq, Repr

/-- The inner `run_git` helper: stripped stdout on success, the empty string
    when the invocation raises. -/
def run_git (runner : GitRunner) (args : List String) : String :=
  match runner args with
  | .ok out => pyStrip out
  | .error _ => ""

/-- The loader `get_git_info`: three independent git queries; the commit hash truncated
    to its first 8 characters, and an empty tag normalised to `None`. -/
def get_git_info (runner : GitRunner) : GitInfo :=
  { commit := pyTakeLeft (run_git runner ["rev-parse", "HEAD"]) 8
  , branch := run_git runner ["rev-parse", "--abbrev-ref", "HEAD"]
  , tag :=
      let t := run_git runner ["describe", "--tags", "--abbrev=0"]
      if t == "" then none else some t }

/-! ### Assembler (`generate_manifest`) and writer (`main`) -/

/-- A skill entry as it is serialised into the manifest. -/
def skillToJson (s : Skill) : Json :=
  .obj (s.map (fun kv => (kv.1, Json.str kv.2)))

/-- A workflow entry as it is serialised into the manifest. -/
def workflowToJson (w : Workflow) : Json :=
  .obj [("id", .str w.id), ("name", .str w.name), ("path", .str w.path)]

/-- A changelog entry as it is serialised into the manifest. -/
def changelogEntryToJson (e : ChangelogEntry) : Json :=
  .obj [("version", .str e.version), ("changes", .arr (e.changes.map Json.str))]

/-- The pure heart of `generate_manifest`: the manifest dictionary literal of
    the script, built from the loaded sources, the git info and the
    `datetime.now(timezone.utc).isoformat()` timestamp `now`.  Every field
    mapping and default is copied from the source. -/
def assemble (plugin_json nav_metadata url_sitemap : Json) (skills : List Skill)
    (workflows : List Workflow) (changelog : List ChangelogEntry)
    (git_info : GitInfo) (now : String) : Json :=
  .obj
    [ ("$schema", .str "https://robinmordasiewicz.github.io/f5xc-console/schema/manifest-v1.json")
    , ("manifest_version", .str "1.0.0")
    , ("generated_at", .str now)
    , ("plugin", .obj
        [ ("name", plugin_json.getD "name" (.str "xc"))
        , ("display_name",
            plugin_json.getD "display_name" (plugin_json.getD "name" (.str "xc")))
        , ("version", plugin_json.getD "version" (.str "0.0.0"))
        , ("tagline", plugin_json.getD "tagline" (.str ""))
        , ("description", plugin_json.getD "description" (.str ""))
        , ("long_description", plugin_json.getD "long_description" (.str ""))
        , ("author", plugin_json.getD "author" (.obj []))
        , ("license", plugin_json.getD "license" (.str "MIT"))
        , ("repository", plugin_json.getD "repository" (.str ""))
        , ("homepage", plugin_json.getD "homepage" (.str ""))
        , ("keywords", plugin_json.getD "keywords" (.arr []))
        , ("categories", plugin_json.getD "categories" (.arr []))
        , ("platforms", plugin_json.getD "platforms" (.arr []))
        ])
    , ("display", .obj
        [ ("icon", plugin_json.getD "icon" (.str ""))
        , ("banner", plugin_json.getD "banner" (.str ""))
        , ("screenshots", plugin_json.getD "screenshots" (.arr []))
        , ("features", plugin_json.getD "features" (.arr []))
        ])
    , ("installation", plugin_json.getD "installation" (.obj []))
    , ("prerequisites", plugin_json.getD "prerequisites" (.arr []))
    , ("compatibility", plugin_json.getD "compatibility" (.obj []))
    , ("support", plugin_json.getD "support" (.obj []))
    , ("maintainers", plugin_json.getD "maintainers" (.arr []))
    , ("build", .obj
        [ ("commit", .str git_info.commit)
        , ("branch", .str git_info.branch)
        , ("tag", match git_info.tag with | some t => .str t | none => .null)
        ])
    , ("changelog", .arr (changelog.map changelogEntryToJson))
    , ("console_metadata", .obj
        [ ("version", nav_metadata.getD "version" (.str "unknown"))
        , ("tenant", nav_metadata.getD "tenant" (.str ""))
        , ("last_crawled",
            (nav_metadata.getD "crawl_summary" (.obj [])).getD "last_crawled"
              (nav_metadata.getD "last_crawled" (.str "")))
        , ("selector_priority", nav_metadata.getD "selector_priority" (.arr []))
        , ("authentication", nav_metadata.getD "authentication" (.obj []))
        , ("stats", .obj
            [ ("pages_crawled",
                (nav_metadata.getD "crawl_summary" (.obj [])).getD
                  "pages_crawled" (.num 0))
            , ("workspaces_discovered",
                (nav_metadata.getD "crawl_summary" (.obj [])).getD
                  "workspaces_discovered" (.num 0))
            , ("form_fields",
                (nav_metadata.getD "crawl_summary" (.obj [])).getD
                  "form_fields" (.num 0))
            ])
        ])
    , ("url_sitemap", .obj
        [ ("version", url_sitemap.getD "version" (.str "unknown"))
        , ("coverage", url_sitemap.getD "crawl_coverage" (.obj []))
        , ("workspace_mapping", url_sitemap.getD "workspace_mapping" (.obj []))
        , ("resource_shortcuts", url_sitemap.getD "resource_shortcuts" (.obj []))
        , ("static_route_count",
            .num (url_sitemap.getD "static_routes" (.obj [])).pyLen)
        , ("dynamic_pattern_count",
            .num (url_sitemap.getD "dynamic_routes" (.arr [])).pyLen)
        ])
    , ("skills", .arr (skills.map skillToJson))
    , ("workflows", .arr (workflows.map workflowToJson))
    , ("mcp_tools", .arr
        [ .str "mcp__chrome-devtools__list_pages"
        , .str "mcp__chrome-devtools__navigate_page"
        , .str "mcp__chrome-devtools__take_snapshot"
        , .str "mcp__chrome-devtools__click"
        , .str "mcp__chrome-devtools__fill"
        , .str "mcp__chrome-devtools__take_screenshot"
        , .str "mcp__chrome-devtools__evaluate_script"
        ])
    , ("commands", .arr
        [ .obj
            [ ("name", .str "console")
            , ("alias", .str "xc:console")
            , ("description", .str "F5 XC console automation")
            , ("subcommands", .arr
                [ .obj [("name", .str "login"),
                        ("description", .str "Authenticate to tenant")]
                , .obj [("name", .str "crawl"),
                        ("description", .str "Refresh navigation metadata")]
                , .obj [("name", .str "nav"),
                        ("description", .str "Navigate to workspace/page")]
                , .obj [("name", .str "create"),
                        ("description", .str "Start resource creation")]
                , .obj [("name", .str "status"),
                        ("description", .str "Show connection status")]
                ])
            ]
        ])
    , ("documentation", .obj
        [ ("plugin_docs",
            plugin_json.getD "homepage"
              (.str "https://robinmordasiewicz.github.io/f5xc-console/"))
        , ("api_reference", .str "https://docs.cloud.f5.com/docs/api")
        , ("f5xc_docs", .str "https://docs.cloud.f5.com/")
        ])
    , ("ecosystem", .arr
        [ .obj [ ("name", .str "f5xc-cli")
               , ("command", .str "/xc:cli")
               , ("purpose", .str "CLI operations (f5xcctl)") ]
        , .obj [ ("name", .str "f5xc-terraform")
               , ("command", .str "/xc:tf")
               , ("purpose", .str "Infrastructure as Code") ]
        , .obj [ ("name", .str "f5xc-docs")
               , ("command", .str "/xc:docs")
               , ("purpose", .str "Documentation lookups") ]
        ])
    ]

/-- The function `generate_manifest`: load the three JSON sources, enumerate skills,
    workflows and changelog entries, query git, and assemble.  A parse error
    or a missing skills directory propagates; nothing else fails. -/
def generate_manifest (parse : String → Except String Json) (runner : GitRunner)
    (fs : FS) (root_dir : FPath) (now : String) : Except String Json :=
  match load_json parse fs (root_dir ++ [".claude-plugin", "plugin.json"]) with
  | .error e => .error e
  | .ok plugin_json =>
  match load_json parse fs
      (root_dir ++ ["skills", "xc-console", "console-navigation-metadata.json"]) with
  | .error e => .error e
  | .ok nav_metadata =>
  match load_json parse fs (root_dir ++ ["skills", "xc-console", "url-sitemap.json"]) with
  | .error e => .error e
  | .ok url_sitemap =>
  match get_skills fs (root_dir ++ ["skills"]) with
  | .error e => .error e
  | .ok skills =>
    .ok (assemble plugin_json nav_metadata url_sitemap skills
      (get_workflows fs (root_dir ++ ["skills", "xc-console", "workflows"]))
      (get_changelog fs root_dir 5)
      (get_git_info runner) now)

/-- The eight files `main` writes, in order, as path–content pairs: the
    manifest at the root and under `@docs/data`, five verbatim sub-objects,
    and the synthesized installation grouping.  The manifest always carries
    the indexed keys, so the `dict` indexing of the script never fails. -/
def mainWrites (root_dir : FPath) (manifest : Json) : List (FPath × Json) :=
  [ (root_dir ++ ["manifest.json"], manifest)
  , (root_dir ++ ["@docs", "data", "manifest.json"], manifest)
  , (root_dir ++ ["@docs", "data", "plugin.json"], manifest.getD "plugin" .null)
  , (root_dir ++ ["@docs", "data", "display.json"], manifest.getD "display" .null)
  , (root_dir ++ ["@docs", "data", "console_metadata.json"],
      manifest.getD "console_metadata" .null)
  , (root_dir ++ ["@docs", "data", "url_sitemap.json"],
      manifest.getD "url_sitemap" .null)
  , (root_dir ++ ["@docs", "data", "workflows.json"],
      manifest.getD "workflows" .null)
  , (root_dir ++ ["@docs", "data", "installation.json"], .obj
      [ ("installation", manifest.getD "installation" .null)
      , ("prerequisites", manifest.getD "prerequisites" .null)
      , ("compatibility", manifest.getD "compatibility" .null) ])
  ]

/-- The entry point `main`: generate the manifest and, only on success, perform the writes.
    An uncaught error propagates with no file written (non-zero exit).
    (Named `main_run` because Lean reserves `main` for an `IO` entry point.) -/
def main_run (parse : String → Except String Json) (runner : GitRunner) (fs : FS)
    (root_dir : FPath) (now : String) : Except String (List (FPath × Json)) :=
  match generate_manifest parse runner fs root_dir now with
  | .error e => .error e
  | .ok manifest => .ok (mainWrites root_dir manifest)

/-! ### Concrete fixtures -/

/-- The empty filesystem. -/
def fsEmpty : FS := ⟨[], []⟩

/-- A filesystem holding just the project root and an empty skills
    directory: every optional source is absent. -/
def fsBare : FS := ⟨[], [["r"], ["r", "skills"]]⟩

/-- A parser that rejects every document. -/
def parseFail : String → Except String Json := fun _ => .error "ParseError"

/-- A parser that reads every document as the empty mapping. -/
def parseEmpty : String → Except String Json := fun _ => .ok (.obj [])

/-- A git runner whose every invocation raises. -/
def gitDown : GitRunner := fun _ => .error ()

/-- A skills directory with one subdirectory whose `SKILL.md` front matter
    sets `id` and `version`. -/
def fsSkillDemo : FS :=
  ⟨[(["r", "skills", "demo-skill", "SKILL.md"],
     "---\nid: demo\nversion: 1.0\n---\n\n# Demo")],
   [["r"], ["r", "skills"], ["r", "skills", "demo-skill"]]⟩

/-- A skills directory whose `SKILL.md` front matter repeats the key
    `version` on two lines. -/
def fsSkillDup : FS :=
  ⟨[(["r", "skills", "dup-skill", "SKILL.md"],
     "---\nversion: 1.0\nversion: 2.0\n---\nbody")],
   [["r"], ["r", "skills"], ["r", "skills", "dup-skill"]]⟩

/-- A workflows directory holding `deploy-app.md` and `_draft.md`. -/
def fsWorkflowPair : FS :=
  ⟨[(["r", "skills", "xc-console", "workflows", "deploy-app.md"], "# Deploy"),
    (["r", "skills", "xc-console", "workflows", "_draft.md"], "# Draft")],
   [["r"], ["r", "skills"], ["r", "skills", "xc-console"],
    ["r", "skills", "xc-console", "workflows"]]⟩

/-- A changelog with 7 second-level headings, each followed by one bullet. -/
def changelog7 : String :=
  "# Changelog\n\n## v1\n- b1\n## v2\n- b2\n## v3\n- b3\n## v4\n- b4\n## v5\n- b5\n## v6\n- b6\n## v7\n- b7\n"

/-- A filesystem whose `CHANGELOG.md` is `changelog7`. -/
def fsChangelog7 : FS := ⟨[(["r", "CHANGELOG.md"], changelog7)], [["r"]]⟩

/-- A filesystem whose `CHANGELOG.md` heading line contains `## ` twice. -/
def fsChangelogOdd : FS :=
  ⟨[(["r", "CHANGELOG.md"], "## 1.0 ## beta\n- x")], [["r"]]⟩

/-- A filesystem whose plugin descriptor is present (its text will be fed to
    the parser). -/
def fsBadPlugin : FS :=
  ⟨[(["r", ".claude-plugin", "plugin.json"], "not json")],
   [["r"], ["r", ".claude-plugin"], ["r", "skills"]]⟩

/-! ### Helper lemmas -/

/-- An absent path has no readable file. -/
theorem FS.readFile_eq_none {fs : FS} {p : FPath} (h : fs.pathExists p = false) :
    fs.readFile p = none := by
  cases hr : fs.readFile p with
  | none => rfl
  | some c => rw [FS.pathExists, hr] at h; simp at h

/-- An absent path is not a directory. -/
theorem FS.dirExists_eq_false {fs : FS} {p : FPath}
    (h : fs.pathExists p = false) : fs.dirExists p = false := by
  rw [FS.pathExists] at h
  simp only [Bool.or_eq_false_iff] at h
  exact h.2

/-! ### Claim theorems -/

/-- C7: for a skills directory with one subdirectory whose `SKILL.md` front
    matter carries `id: demo` and `version: 1.0`, the entry's `id` is
    `"demo"` (the front-matter key overwrites the synthesized subdirectory
    name, in place) and its `version` is `"1.0"`; and a later duplicate
    front-matter key's value overwrites an earlier one's. -/
theorem frontmatter_overrides_synthesized_id :
    get_skills fsSkillDemo ["r", "skills"] =
      .ok [[("id", "demo"), ("path", "skills/demo-skill"), ("version", "1.0")]] ∧
    get_skills fsSkillDup ["r", "skills"] =
      .ok [[("id", "dup-skill"), ("path", "skills/dup-skill"), ("version", "2.0")]] :=
  ⟨rfl, rfl⟩

/-- C2: on a changelog with 7 headings each followed by one bullet, parsing
    with limit 5 returns exactly the first 5 entries, the 5th carrying
    exactly the bullet between the 5th and 6th headings; and in general a
    `## ` line appends the open entry to the output only while fewer than
    `limit` entries have been appended. -/
theorem changelog_limit_gates_append :
    (get_changelog fsChangelog7 ["r"] 5 =
      [⟨"v1", ["b1"]⟩, ⟨"v2", ["b2"]⟩, ⟨"v3", ["b3"]⟩,
       ⟨"v4", ["b4"]⟩, ⟨"v5", ["b5"]⟩]) ∧
    ∀ (limit : Nat) (entries : List ChangelogEntry)
      (cur : Option ChangelogEntry) (line : String),
      pyStartsWith line "## " = true →
      (changelogStep limit (entries, cur) line).1 =
        match cur with
        | some e => if entries.length < limit then entries ++ [e] else entries
        | none => entries := by
  refine ⟨rfl, ?_⟩
  intro limit entries cur line h
  rw [changelogStep]
  simp only [h, if_true]

/-- Witness for C2: the step theorem applied at a concrete open entry, a
    concrete closed state and a concrete heading line. -/
theorem changelog_limit_gates_append_witness :
    (changelogStep 1 ([], some ⟨"v", []⟩) "## w").1 = [⟨"v", []⟩] ∧
    (changelogStep 1 ([⟨"v", []⟩], some ⟨"w", []⟩) "## x").1 = [⟨"v", []⟩] ∧
    (changelogStep 1 ([], none) "## w").1 = [] := by
  refine ⟨?_, ?_, ?_⟩
  · exact changelog_limit_gates_append.2 1 [] (some ⟨"v", []⟩) "## w" rfl
  · exact changelog_limit_gates_append.2 1 [⟨"v", []⟩] (some ⟨"w", []⟩) "## x" rfl
  · exact changelog_limit_gates_append.2 1 [] none "## w" rfl

/-- C10: the version label of a changelog entry is the heading line with
    every occurrence of `"## "` removed and then stripped; in particular the
    heading `## 1.0 ## beta` yields the label `1.0 beta`. -/
theorem changelog_version_label :
    pyStrip (pyReplace "## 1.0 ## beta" "## " "") = "1.0 beta" ∧
    get_changelog fsChangelogOdd ["r"] 5 = [⟨"1.0 beta", ["x"]⟩] ∧
    ∀ (limit : Nat) (st : List ChangelogEntry × Option ChangelogEntry)
      (line : String),
      pyStartsWith line "## " = true →
      (changelogStep limit st line).2 =
        some ⟨pyStrip (pyReplace line "## " ""), []⟩ := by
  refine ⟨rfl, rfl, ?_⟩
  intro limit st line h
  rw [changelogStep]
  simp only [h, if_true]

/-- Witness for C10: the step theorem applied to the concrete double-marker
    heading line. -/
theorem changelog_version_label_witness :
    (changelogStep 5 ([], none) "## 1.0 ## beta").2 = some ⟨"1.0 beta", []⟩ :=
  changelog_version_label.2.2 5 ([], none) "## 1.0 ## beta" rfl

/-- C9: a workflows directory holding `deploy-app.md` and `_draft.md` yields
    exactly one entry, with id `deploy-app` and name `Deploy App`; and in
    general every produced entry comes from a `*.md` child whose name does
    not start with `_`, its name being the filename stem with hyphens
    replaced by spaces and title-cased. -/
theorem workflows_enumeration :
    get_workflows fsWorkflowPair ["r", "skills", "xc-console", "workflows"] =
      [⟨"deploy-app", "Deploy App",
        "skills/xc-console/workflows/deploy-app.md"⟩] ∧
    ∀ (fs : FS) (d : FPath) (w : Workflow), w ∈ get_workflows fs d →
      ∃ p, p ∈ fs.children d ∧ globMd (lastSeg p) = true ∧
        pyStartsWith (lastSeg p) "_" = false ∧
        w.id = pathStem (lastSeg p) ∧
        w.name = pyTitle (pyReplace (pathStem (lastSeg p)) "-" " ") ∧
        w.path = pathStr (relativeTo p
          (parentPath (parentPath (parentPath d)))) := by
  refine ⟨rfl, ?_⟩
  intro fs d w hw
  rw [get_workflows] at hw
  cases hex : fs.pathExists d with
  | false => rw [hex] at hw; simp at hw
  | true =>
    rw [hex] at hw
    simp only [Bool.not_true, Bool.false_eq_true, if_false, List.mem_map,
      List.mem_filter, Bool.and_eq_true, Bool.not_eq_eq_eq_not,
      Bool.not_true] at hw
    obtain ⟨p, ⟨hp, hglob, hund⟩, hmk⟩ := hw
    subst hmk
    exact ⟨p, hp, hglob, hund, rfl, rfl, rfl⟩

/-- Witness for C9: the membership characterisation applied to the single
    entry produced from the concrete two-file workflows directory. -/
theorem workflows_enumeration_witness :
    ∃ p, p ∈ fsWorkflowPair.children ["r", "skills", "xc-console", "workflows"] ∧
      globMd (lastSeg p) = true ∧
      pyStartsWith (lastSeg p) "_" = false ∧
      (Workflow.mk "deploy-app" "Deploy App"
        "skills/xc-console/workflows/deploy-app.md").id = pathStem (lastSeg p) ∧
      (Workflow.mk "deploy-app" "Deploy App"
        "skills/xc-console/workflows/deploy-app.md").name =
        pyTitle (pyReplace (pathStem (lastSeg p)) "-" " ") ∧
      (Workflow.mk "deploy-app" "Deploy App"
        "skills/xc-console/workflows/deploy-app.md").path =
        pathStr (relativeTo p (parentPath (parentPath (parentPath
          ["r", "skills", "xc-console", "workflows"])))) :=
  workflows_enumeration.2 fsWorkflowPair ["r", "skills", "xc-console", "workflows"]
    ⟨"deploy-app", "Deploy App", "skills/xc-console/workflows/deploy-app.md"⟩
    (by decide)

/-- C1 counterexample: on a filesystem where the skills directory is absent,
    `get_skills` does not return the documented empty value; the
    `FileNotFoundError` of `Path.iterdir` propagates instead (the script has
    no existence check in `get_skills`, unlike its other loaders). -/
theorem get_skills_absent_dir_raises :
    fsEmpty.pathExists ["r", "skills"] = false ∧
    get_skills fsEmpty ["r", "skills"] = .error "FileNotFoundError" ∧
    get_skills fsEmpty ["r", "skills"] ≠ .ok [] :=
  ⟨rfl, rfl, fun h => Except.noConfusion h⟩

/-- C1 as amended: the JSON file loader, the workflow enumerator and the
    changelog parser each return their documented empty value when their
    input path does not exist, while the skill enumerator instead propagates
    `FileNotFoundError` when the skills directory is absent. -/
theorem loaders_absent_default (parse : String → Except String Json) (fs : FS)
    (p₁ p₂ p₃ p₄ : FPath) (limit : Nat) :
    (fs.pathExists p₁ = false → load_json parse fs p₁ = .ok (.obj [])) ∧
    (fs.pathExists p₂ = false → get_workflows fs p₂ = []) ∧
    (fs.pathExists (p₃ ++ ["CHANGELOG.md"]) = false →
      get_changelog fs p₃ limit = []) ∧
    (fs.pathExists p₄ = false →
      get_skills fs p₄ = .error "FileNotFoundError") := by
  refine ⟨?_, ?_, ?_, ?_⟩
  · intro h
    rw [load_json, FS.readFile_eq_none h]
  · intro h
    rw [get_workflows, h]
    rfl
  · intro h
    rw [get_changelog, FS.readFile_eq_none h]
  · intro h
    rw [get_skills, FS.iterdir, FS.dirExists_eq_false h]
    rfl

/-- Witness for C1: the amended theorem applied to the empty filesystem. -/
theorem loaders_absent_default_witness :
    load_json parseFail fsEmpty ["r", "a.json"] = .ok (.obj []) ∧
    get_workflows fsEmpty ["r", "workflows"] = [] ∧
    get_changelog fsEmpty ["r"] 5 = [] ∧
    get_skills fsEmpty ["r", "skills"] = .error "FileNotFoundError" := by
  obtain ⟨h1, h2, h3, h4⟩ := loaders_absent_default parseFail fsEmpty
    ["r", "a.json"] ["r", "workflows"] ["r"] ["r", "skills"] 5
  exact ⟨h1 rfl, h2 rfl, h3 rfl, h4 rfl⟩

/-- C6: with a descriptor carrying no fields, every manifest field with a
    documented default takes exactly that default — in particular `license`
    is `"MIT"` and `name` is `"xc"` — and the assembler (a total function)
    cannot fail on missing optional source data. -/
theorem empty_descriptor_defaults (nv us : Json) (sk : List Skill)
    (wf : List Workflow) (cl : List ChangelogEntry) (gi : GitInfo)
    (now : String) :
    ((assemble (.obj []) nv us sk wf cl gi now).getD "plugin" .null).getD
        "name" .null = .str "xc" ∧
    ((assemble (.obj []) nv us sk wf cl gi now).getD "plugin" .null).getD
        "license" .null = .str "MIT" ∧
    (assemble (.obj []) nv us sk wf cl gi now).getD "plugin" .null = .obj
      [ ("name", .str "xc"), ("display_name", .str "xc")
      , ("version", .str "0.0.0"), ("tagline", .str "")
      , ("description", .str ""), ("long_description", .str "")
      , ("author", .obj []), ("license", .str "MIT")
      , ("repository", .str ""), ("homepage", .str "")
      , ("keywords", .arr []), ("categories", .arr [])
      , ("platforms", .arr []) ] ∧
    (assemble (.obj []) nv us sk wf cl gi now).getD "display" .null = .obj
      [ ("icon", .str ""), ("banner", .str "")
      , ("screenshots", .arr []), ("features", .arr []) ] ∧
    (assemble (.obj []) nv us sk wf cl gi now).getD "installation" .null =
      .obj [] ∧
    (assemble (.obj []) nv us sk wf cl gi now).getD "prerequisites" .null =
      .arr [] ∧
    (assemble (.obj []) nv us sk wf cl gi now).getD "compatibility" .null =
      .obj [] ∧
    (assemble (.obj []) nv us sk wf cl gi now).getD "support" .null = .obj [] ∧
    (assemble (.obj []) nv us sk wf cl gi now).getD "maintainers" .null =
      .arr [] ∧
    ((assemble (.obj []) nv us sk wf cl gi now).getD "documentation" .null).getD
        "plugin_docs" .null =
      .str "https://robinmordasiewicz.github.io/f5xc-console/" :=
  ⟨rfl, rfl, rfl, rfl, rfl, rfl, rfl, rfl, rfl, rfl⟩

/-- C8: the manifest's `url_sitemap.static_route_count` is the number of
    entries of the source sitemap's static route table and
    `dynamic_pattern_count` the number of entries of its dynamic route list,
    each 0 when the corresponding collection is absent; and the `url_sitemap`
    section carries only its six summary keys, never the tables themselves. -/
theorem sitemap_route_counts (pj nv : Json) (us_fields : List (String × Json))
    (sr : List (String × Json)) (dr : List Json) (sk : List Skill)
    (wf : List Workflow) (cl : List ChangelogEntry) (gi : GitInfo)
    (now : String) :
    (jfind us_fields "static_routes" = some (.obj sr) →
      ((assemble pj nv (.obj us_fields) sk wf cl gi now).getD
          "url_sitemap" .null).getD "static_route_count" .null =
        .num sr.length) ∧
    (jfind us_fields "dynamic_routes" = some (.arr dr) →
      ((assemble pj nv (.obj us_fields) sk wf cl gi now).getD
          "url_sitemap" .null).getD "dynamic_pattern_count" .null =
        .num dr.length) ∧
    (jfind us_fields "static_routes" = none →
      ((assemble pj nv (.obj us_fields) sk wf cl gi now).getD
          "url_sitemap" .null).getD "static_route_count" .null = .num 0) ∧
    (jfind us_fields "dynamic_routes" = none →
      ((assemble pj nv (.obj us_fields) sk wf cl gi now).getD
          "url_sitemap" .null).getD "dynamic_pattern_count" .null = .num 0) ∧
    ((assemble pj nv (.obj us_fields) sk wf cl gi now).getD
        "url_sitemap" .null).keys =
      ["version", "coverage", "workspace_mapping", "resource_shortcuts",
       "static_route_count", "dynamic_pattern_count"] := by
  refine ⟨?_, ?_, ?_, ?_, rfl⟩
  · intro h
    show Json.num (Json.pyLen ((Json.obj us_fields).getD "static_routes"
      (Json.obj []))) = Json.num sr.length
    simp only [Json.getD, h, Json.pyLen]
  · intro h
    show Json.num (Json.pyLen ((Json.obj us_fields).getD "dynamic_routes"
      (Json.arr []))) = Json.num dr.length
    simp only [Json.getD, h, Json.pyLen]
  · intro h
    show Json.num (Json.pyLen ((Json.obj us_fields).getD "static_routes"
      (Json.obj []))) = Json.num 0
    simp only [Json.getD, h, Json.pyLen]
    rfl
  · intro h
    show Json.num (Json.pyLen ((Json.obj us_fields).getD "dynamic_routes"
      (Json.arr []))) = Json.num 0
    simp only [Json.getD, h, Json.pyLen]
    rfl

/-- Witness for C8: the count equations applied to a concrete sitemap with
    two static routes and one dynamic pattern, and to one with neither
    collection. -/
theorem sitemap_route_counts_witness :
    ((assemble .null .null
          (.obj [ ("static_routes", .obj [("a", .str "u"), ("b", .str "v")])
                , ("dynamic_routes", .arr [.str "p"]) ])
          [] [] [] ⟨"", "", none⟩ "T").getD "url_sitemap" .null).getD
        "static_route_count" .null = .num 2 ∧
    ((assemble .null .null
          (.obj [ ("static_routes", .obj [("a", .str "u"), ("b", .str "v")])
                , ("dynamic_routes", .arr [.str "p"]) ])
          [] [] [] ⟨"", "", none⟩ "T").getD "url_sitemap" .null).getD
        "dynamic_pattern_count" .null = .num 1 ∧
    ((assemble .null .null (.obj []) [] [] [] ⟨"", "", none⟩ "T").getD
        "url_sitemap" .null).getD "static_route_count" .null = .num 0 ∧
    ((assemble .null .null (.obj []) [] [] [] ⟨"", "", none⟩ "T").getD
        "url_sitemap" .null).getD "dynamic_pattern_count" .null = .num 0 := by
  refine ⟨?_, ?_, ?_, ?_⟩
  · exact (sitemap_route_counts .null .null
      [ ("static_routes", .obj [("a", .str "u"), ("b", .str "v")])
      , ("dynamic_routes", .arr [.str "p"]) ]
      [("a", .str "u"), ("b", .str "v")] [.str "p"]
      [] [] [] ⟨"", "", none⟩ "T").1 rfl
  · exact (sitemap_route_counts .null .null
      [ ("static_routes", .obj [("a", .str "u"), ("b", .str "v")])
      , ("dynamic_routes", .arr [.str "p"]) ]
      [("a", .str "u"), ("b", .str "v")] [.str "p"]
      [] [] [] ⟨"", "", none⟩ "T").2.1 rfl
  · exact (sitemap_route_counts .null .null [] [] []
      [] [] [] ⟨"", "", none⟩ "T").2.2.1 rfl
  · exact (sitemap_route_counts .null .null [] [] []
      [] [] [] ⟨"", "", none⟩ "T").2.2.2.1 rfl

/-- Success of `generate_manifest` is exactly joint success of its three JSON
    loads and of the skill enumeration. -/
theorem generate_manifest_isOk (parse : String → Except String Json)
    (runner : GitRunner) (fs : FS) (root_dir : FPath) (now : String) :
    (generate_manifest parse runner fs root_dir now).isOk =
      ((load_json parse fs (root_dir ++ [".claude-plugin", "plugin.json"])).isOk &&
       (load_json parse fs
         (root_dir ++ ["skills", "xc-console", "console-navigation-metadata.json"])).isOk &&
       (load_json parse fs (root_dir ++ ["skills", "xc-console", "url-sitemap.json"])).isOk &&
       (get_skills fs (root_dir ++ ["skills"])).isOk) := by
  rw [generate_manifest]
  cases h1 : load_json parse fs (root_dir ++ [".claude-plugin", "plugin.json"])
  · simp [Except.isOk, Except.toBool]
  · cases h2 : load_json parse fs
        (root_dir ++ ["skills", "xc-console", "console-navigation-metadata.json"])
    · simp [Except.isOk, Except.toBool]
    · cases h3 : load_json parse fs
          (root_dir ++ ["skills", "xc-console", "url-sitemap.json"])
      · simp [Except.isOk, Except.toBool]
      · cases h4 : get_skills fs (root_dir ++ ["skills"])
        · simp [Except.isOk, Except.toBool]
        · simp [Except.isOk, Except.toBool]

/-- The writer succeeds exactly when manifest generation does. -/
theorem main_run_isOk (parse : String → Except String Json) (runner : GitRunner)
    (fs : FS) (root_dir : FPath) (now : String) :
    (main_run parse runner fs root_dir now).isOk =
      (generate_manifest parse runner fs root_dir now).isOk := by
  rw [main_run]
  cases h : generate_manifest parse runner fs root_dir now <;> simp [Except.isOk, Except.toBool]

/-- A successful run writes exactly `mainWrites` of the generated manifest. -/
theorem main_run_ok_elim {parse : String → Except String Json}
    {runner : GitRunner} {fs : FS} {root_dir : FPath} {now : String}
    {ws : List (FPath × Json)}
    (h : main_run parse runner fs root_dir now = .ok ws) :
    ∃ m, generate_manifest parse runner fs root_dir now = .ok m ∧
      ws = mainWrites root_dir m := by
  rw [main_run] at h
  cases hg : generate_manifest parse runner fs root_dir now with
  | error e => rw [hg] at h; exact Except.noConfusion h
  | ok m => rw [hg] at h; exact ⟨m, rfl, (Except.ok.inj h).symm⟩

/-- A successfully generated manifest is the assembly of successfully loaded
    sources. -/
theorem generate_manifest_ok_elim {parse : String → Except String Json}
    {runner : GitRunner} {fs : FS} {root_dir : FPath} {now : String} {m : Json}
    (h : generate_manifest parse runner fs root_dir now = .ok m) :
    ∃ pj nv us sk,
      load_json parse fs (root_dir ++ [".claude-plugin", "plugin.json"]) = .ok pj ∧
      load_json parse fs
        (root_dir ++ ["skills", "xc-console", "console-navigation-metadata.json"]) = .ok nv ∧
      load_json parse fs (root_dir ++ ["skills", "xc-console", "url-sitemap.json"]) = .ok us ∧
      get_skills fs (root_dir ++ ["skills"]) = .ok sk ∧
      m = assemble pj nv us sk
        (get_workflows fs (root_dir ++ ["skills", "xc-console", "workflows"]))
        (get_changelog fs root_dir 5) (get_git_info runner) now := by
  rw [generate_manifest] at h
  cases h1 : load_json parse fs (root_dir ++ [".claude-plugin", "plugin.json"]) with
  | error e => rw [h1] at h; exact Except.noConfusion h
  | ok pj =>
  rw [h1] at h
  cases h2 : load_json parse fs
      (root_dir ++ ["skills", "xc-console", "console-navigation-metadata.json"]) with
  | error e => rw [h2] at h; exact Except.noConfusion h
  | ok nv =>
  rw [h2] at h
  cases h3 : load_json parse fs
      (root_dir ++ ["skills", "xc-console", "url-sitemap.json"]) with
  | error e => rw [h3] at h; exact Except.noConfusion h
  | ok us =>
  rw [h3] at h
  cases h4 : get_skills fs (root_dir ++ ["skills"]) with
  | error e => rw [h4] at h; exact Except.noConfusion h
  | ok sk =>
  rw [h4] at h
  exact ⟨pj, nv, us, sk, rfl, rfl, rfl, rfl, (Except.ok.inj h).symm⟩

/-- C3: when any present source file fails to parse, the error propagates and
    the run fails (non-zero exit, no write performed — writes exist only in
    the success payload of `main_run`); conversely a successful run means
    every loader, and hence the assembler, succeeded before any write. -/
theorem malformed_input_aborts_run (parse : String → Except String Json)
    (runner : GitRunner) (fs : FS) (root_dir : FPath) (now : String) :
    (((load_json parse fs (root_dir ++ [".claude-plugin", "plugin.json"])).isOk = false ∨
      (load_json parse fs
        (root_dir ++ ["skills", "xc-console", "console-navigation-metadata.json"])).isOk = false ∨
      (load_json parse fs
        (root_dir ++ ["skills", "xc-console", "url-sitemap.json"])).isOk = false) →
      (main_run parse runner fs root_dir now).isOk = false) ∧
    (∀ ws, main_run parse runner fs root_dir now = .ok ws →
      (load_json parse fs (root_dir ++ [".claude-plugin", "plugin.json"])).isOk = true ∧
      (load_json parse fs
        (root_dir ++ ["skills", "xc-console", "console-navigation-metadata.json"])).isOk = true ∧
      (load_json parse fs
        (root_dir ++ ["skills", "xc-console", "url-sitemap.json"])).isOk = true ∧
      (get_skills fs (root_dir ++ ["skills"])).isOk = true) := by
  constructor
  · intro h
    rw [main_run_isOk, generate_manifest_isOk]
    rcases h with h | h | h <;> simp [h]
  · intro ws hws
    obtain ⟨m, hm, -⟩ := main_run_ok_elim hws
    have hok := generate_manifest_isOk parse runner fs root_dir now
    rw [hm, show (Except.ok m : Except String Json).isOk = true from rfl] at hok
    replace hok := hok.symm
    simp only [Bool.and_eq_true] at hok
    exact ⟨hok.1.1.1, hok.1.1.2, hok.1.2, hok.2⟩

/-- Witness for C3: a run whose present plugin descriptor is rejected by the
    parser fails. -/
theorem malformed_input_aborts_run_witness :
    (main_run parseFail gitDown fsBadPlugin ["r"] "T").isOk = false :=
  (malformed_input_aborts_run parseFail gitDown fsBadPlugin ["r"] "T").1
    (Or.inl rfl)

/-- C4: the run is deterministic up to the timestamp — with identical
    filesystem, parser and git state, two runs at different clock readings
    produce the same outcome, and on success the same writes except for the
    `generated_at` field of the manifest copies. -/
theorem deterministic_up_to_timestamp (parse : String → Except String Json)
    (runner : GitRunner) (fs : FS) (root_dir : FPath) (now₁ now₂ : String) :
    (main_run parse runner fs root_dir now₁).map
      (fun ws => ws.map (fun w => (w.1, w.2.eraseKey "generated_at"))) =
    (main_run parse runner fs root_dir now₂).map
      (fun ws => ws.map (fun w => (w.1, w.2.eraseKey "generated_at"))) := by
  simp only [main_run, generate_manifest]
  cases h1 : load_json parse fs (root_dir ++ [".claude-plugin", "plugin.json"])
  · rfl
  · cases h2 : load_json parse fs
        (root_dir ++ ["skills", "xc-console", "console-navigation-metadata.json"])
    · rfl
    · cases h3 : load_json parse fs
          (root_dir ++ ["skills", "xc-console", "url-sitemap.json"])
      · rfl
      · cases h4 : get_skills fs (root_dir ++ ["skills"])
        · rfl
        · rfl

/-- C5: a git failure is soft — when every git invocation raises,
    `get_git_info` yields empty commit and branch strings and a `None` tag;
    the success of a run never depends on the git runner; a successful run
    writes its full list of eight files, with the manifest's `build` section
    holding the empty-string fields and null tag; and each of the three git
    fields depends only on its own invocation. -/
theorem git_failure_is_soft (parse : String → Except String Json) (fs : FS)
    (root_dir : FPath) (now : String) (runner : GitRunner)
    (hfail : ∀ args, runner args = .error ()) :
    get_git_info runner = ⟨"", "", none⟩ ∧
    (∀ r₁ r₂ : GitRunner,
      (main_run parse r₁ fs root_dir now).isOk =
        (main_run parse r₂ fs root_dir now).isOk) ∧
    (∀ ws, main_run parse runner fs root_dir now = .ok ws →
      ws.map (fun w => w.1) =
        [ root_dir ++ ["manifest.json"]
        , root_dir ++ ["@docs", "data", "manifest.json"]
        , root_dir ++ ["@docs", "data", "plugin.json"]
        , root_dir ++ ["@docs", "data", "display.json"]
        , root_dir ++ ["@docs", "data", "console_metadata.json"]
        , root_dir ++ ["@docs", "data", "url_sitemap.json"]
        , root_dir ++ ["@docs", "data", "workflows.json"]
        , root_dir ++ ["@docs", "data", "installation.json"] ] ∧
      ((ws.getD 0 ([], .null)).2).getD "build" .null =
        .obj [("commit", .str ""), ("branch", .str ""), ("tag", .null)]) ∧
    (∀ r₁ r₂ : GitRunner,
      r₁ ["rev-parse", "HEAD"] = r₂ ["rev-parse", "HEAD"] →
      (get_git_info r₁).commit = (get_git_info r₂).commit) ∧
    (∀ r₁ r₂ : GitRunner,
      r₁ ["rev-parse", "--abbrev-ref", "HEAD"] = r₂ ["rev-parse", "--abbrev-ref", "HEAD"] →
      (get_git_info r₁).branch = (get_git_info r₂).branch) ∧
    (∀ r₁ r₂ : GitRunner,
      r₁ ["describe", "--tags", "--abbrev=0"] = r₂ ["describe", "--tags", "--abbrev=0"] →
      (get_git_info r₁).tag = (get_git_info r₂).tag) := by
  have hgit : get_git_info runner = ⟨"", "", none⟩ := by
    rw [get_git_info]
    simp only [run_git, hfail]
    rfl
  refine ⟨hgit, ?_, ?_, ?_, ?_, ?_⟩
  · intro r₁ r₂
    rw [main_run_isOk, main_run_isOk, generate_manifest_isOk,
      generate_manifest_isOk]
  · intro ws hws
    obtain ⟨m, hm, hwseq⟩ := main_run_ok_elim hws
    obtain ⟨pj, nv, us, sk, -, -, -, -, hmeq⟩ := generate_manifest_ok_elim hm
    subst hwseq
    subst hmeq
    refine ⟨rfl, ?_⟩
    rw [hgit]
    rfl
  · intro r₁ r₂ h
    rw [get_git_info, get_git_info]
    simp only [run_git, h]
  · intro r₁ r₂ h
    rw [get_git_info, get_git_info]
    simp only [run_git, h]
  · intro r₁ r₂ h
    rw [get_git_info, get_git_info]
    simp only [run_git, h]

/-- The manifest a run over the bare filesystem with a failing git runner
    assembles. -/
def bareManifest : Json :=
  assemble (.obj []) (.obj []) (.obj []) [] [] [] (get_git_info gitDown) "T"

/-- Witness for C5: the theorem applied to the always-failing runner over the
    bare filesystem, whose run succeeds and writes all eight files. -/
theorem git_failure_is_soft_witness :
    get_git_info gitDown = ⟨"", "", none⟩ ∧
    (mainWrites ["r"] bareManifest).map (fun w => w.1) =
      [ ["r", "manifest.json"]
      , ["r", "@docs", "data", "manifest.json"]
      , ["r", "@docs", "data", "plugin.json"]
      , ["r", "@docs", "data", "display.json"]
      , ["r", "@docs", "data", "console_metadata.json"]
      , ["r", "@docs", "data", "url_sitemap.json"]
      , ["r", "@docs", "data", "workflows.json"]
      , ["r", "@docs", "data", "installation.json"] ] ∧
    (((mainWrites ["r"] bareManifest).getD 0 ([], .null)).2).getD "build" .null =
      .obj [("commit", .str ""), ("branch", .str ""), ("tag", .null)] := by
  have h := git_failure_is_soft parseEmpty fsBare ["r"] "T" gitDown
    (fun _ => rfl)
  exact ⟨h.1, (h.2.2.1 (mainWrites ["r"] bareManifest) rfl).1,
    (h.2.2.1 (mainWrites ["r"] bareManifest) rfl).2⟩
